import Mathlib

deriving instance DecidableEq for Except

/-!
Shallow embedding of the expense-tracker backend (Express + Prisma) for
specification checking.  Monetary amounts are modelled as exact rationals
(the store column is REAL; none of the checked properties depends on
float rounding).  Timestamps are modelled as natural numbers counting
milliseconds since the Unix epoch in UTC (token issue times in seconds).
Each definition mirrors one function or code path of the repository;
the source file and symbol are named in the doc comment.
-/

namespace ExpenseTracker

/-- Data model of the users table (prisma migration 20251120092837_init). -/
structure User where
  id : String
  email : String
  name : String
  password : String
  createdAt : Nat
  updatedAt : Nat
deriving DecidableEq

/-- The user shape selected by the protect middleware and returned by the
API: every column except the password hash
(src/backend/src/middleware/auth.ts, select clause). -/
structure PublicUser where
  id : String
  name : String
  email : String
  createdAt : Nat
  updatedAt : Nat
deriving DecidableEq

/-- Projection used by the select clause of the protect middleware. -/
def publicOf (u : User) : PublicUser :=
  { id := u.id, name := u.name, email := u.email
  , createdAt := u.createdAt, updatedAt := u.updatedAt }

/-- Data model of the expenses table (prisma migration 20251120092837_init).
amount is REAL (modelled as an exact rational), date a DATETIME in UTC
milliseconds, note nullable. -/
structure Expense where
  id : String
  amount : Rat
  category : String
  date : Nat
  note : Option String
  userId : String
  createdAt : Nat
  updatedAt : Nat
deriving DecidableEq

/-- A field-level violation as produced by the errorFormatter of
src/backend/src/middleware/validation.ts. -/
structure FieldError where
  field : String
  message : String
deriving DecidableEq

/-- The pagination object built by getExpenses
(src/controllers/expense.controller.ts). -/
structure Pagination where
  page : Nat
  limit : Nat
  total : Nat
  totalPages : Nat
  hasNextPage : Bool
  hasPrevPage : Bool
deriving DecidableEq

/-- One group of the prisma groupBy result in getExpenseSummary:
a category together with the sum of amount over its rows. -/
structure CategoryTotal where
  category : String
  sumAmount : Rat
deriving DecidableEq

/-- A signed JWT as issued by jwt.sign in auth.controller.ts: payload
id and email, issue time (seconds), and whether its signature verifies
against the configured secret (models tampering). -/
structure Token where
  id : String
  email : String
  issuedAt : Nat
  signatureValid : Bool
deriving DecidableEq

/-- Payloads carried in the data field of success responses. -/
inductive RespData where
  | null
  | expense (e : Expense)
  | expenses (es : List Expense) (pagination : Pagination)
  | summary (groups : List CategoryTotal) (total : Rat)
  | token (t : Token)
  | userAndToken (u : PublicUser) (t : Token)
deriving DecidableEq

/-- An HTTP JSON response of the backend.  status, message, errors and
data are Options because several handlers omit some of these keys:
none models an absent key in the JSON body. -/
structure Response where
  statusCode : Nat
  status : Option String
  message : Option String
  errors : Option (List FieldError)
  data : Option RespData
deriving DecidableEq

/-- Fuel-driven computation of the leading decimal digit of a natural
number (fuel-structural so that it reduces inside the kernel). -/
def leadingDigitAux : Nat → Nat → Nat
  | 0, n => n
  | fuel + 1, n => if n < 10 then n else leadingDigitAux fuel (n / 10)

/-- The leading decimal digit of n; n itself is always enough fuel. -/
def leadingDigit (n : Nat) : Nat := leadingDigitAux n n

/-- The status string computed by the AppError constructor in
src/backend/src/middleware/errorHandler.ts: the decimal rendering of the
status code starts with the character 4 exactly when its leading decimal
digit is 4, giving fail, and error otherwise. -/
def statusForCode (c : Nat) : String :=
  if leadingDigit c == 4 then "fail" else "error"

/-- The AppError class of src/backend/src/middleware/errorHandler.ts:
message, statusCode, derived status, and an optional errors list that
the validate middleware attaches. -/
structure AppError where
  message : String
  statusCode : Nat
  status : String
  errors : Option (List FieldError)
deriving DecidableEq

/-- new AppError(message, statusCode): status derived from the code,
no errors attached. -/
def mkAppError (message : String) (c : Nat) : AppError :=
  { message := message, statusCode := c, status := statusForCode c, errors := none }

/-- The error built by the validate middleware of
src/backend/src/middleware/validation.ts on a non-empty violation list:
new AppError(Validation failed, 400) with error.errors set to the
formatted list. -/
def validationFailedError (errs : List FieldError) : AppError :=
  { mkAppError "Validation failed" 400 with errors := some errs }

/-- The errorHandler of src/backend/src/middleware/errorHandler.ts in a
non-development configuration: the response body spreads only status and
message; the errors list of the AppError is never copied into the body. -/
def errorHandler (e : AppError) : Response :=
  { statusCode := e.statusCode, status := some e.status
  , message := some e.message, errors := none, data := none }

/-- A thrown AppError(message, c) as it reaches the client through
next(error) and the errorHandler. -/
def appErrorResponse (message : String) (c : Nat) : Response :=
  errorHandler (mkAppError message c)

/-! ## Credential and session component (jwt + protect middleware) -/

/-- The errors jwt.verify can throw.  TokenExpiredError is a subclass of
JsonWebTokenError in the jsonwebtoken library. -/
inductive JwtError where
  | tokenExpired
  | jsonWebToken
  | otherError
deriving DecidableEq

/-- JS instanceof jwt.JsonWebTokenError: true for the base class and for
its subclass TokenExpiredError. -/
def instanceOfJsonWebTokenError : JwtError → Bool
  | .tokenExpired => true
  | .jsonWebToken => true
  | .otherError => false

/-- JS instanceof jwt.TokenExpiredError: true only for the subclass. -/
def instanceOfTokenExpiredError : JwtError → Bool
  | .tokenExpired => true
  | _ => false

/-- jwt.sign expiresIn 7d, in seconds. -/
def sevenDaysSeconds : Nat := 604800

/-- jwt.verify(token, secret) at clock time now (seconds): a tampered or
malformed token raises JsonWebTokenError; a structurally valid, correctly
signed token past the 7-day expiry raises TokenExpiredError; otherwise
the payload is returned. -/
def jwtVerify (t : Token) (now : Nat) : Except JwtError (String × String) :=
  if !t.signatureValid then .error .jsonWebToken
  else if t.issuedAt + sevenDaysSeconds ≤ now then .error .tokenExpired
  else .ok (t.id, t.email)

/-- The catch block of the protect middleware
(src/backend/src/middleware/auth.ts lines 57 to 76), exactly in source
order: the JsonWebTokenError branch is tested first, then the
TokenExpiredError branch, then the generic 500. -/
def protectCatch (e : JwtError) : Response :=
  if instanceOfJsonWebTokenError e then
    { statusCode := 401, status := some "fail"
    , message := some "Invalid token. Please log in again!"
    , errors := none, data := none }
  else if instanceOfTokenExpiredError e then
    { statusCode := 401, status := some "fail"
    , message := some "Your token has expired! Please log in again."
    , errors := none, data := none }
  else
    { statusCode := 500, status := some "error"
    , message := some "Something went wrong with authentication"
    , errors := none, data := none }

/-- The protect middleware after token extraction
(src/backend/src/middleware/auth.ts): verify the token, look the payload
id up among the users, and either attach the password-free user record or
answer with the corresponding failure response. -/
def protect (users : List User) (t : Token) (now : Nat) :
    Except Response PublicUser :=
  match jwtVerify t now with
  | .error e => .error (protectCatch e)
  | .ok (id, _) =>
    match users.find? (fun u => u.id == id) with
    | none => .error
        { statusCode := 401, status := some "fail"
        , message := some "The user belonging to this token no longer exists."
        , errors := none, data := none }
    | some u => .ok (publicOf u)

/-! ## Expense validation component
(src/backend/src/middleware/validation.ts) -/

/-- The raw JSON body of POST /expenses before validation.  amount is
none when the field is missing or not numeric; category and note are the
raw strings; date is the parsed timestamp of an ISO-8601 date when one
was supplied; userId models a client-supplied owner id, which the
controller never reads. -/
structure RawCreateBody where
  amount : Option Rat
  category : Option String
  note : Option String
  date : Option Nat
  userId : Option String
deriving DecidableEq

/-- JS whitespace as far as the trim() sanitizer of the request bodies is
concerned (the ASCII whitespace characters). -/
def isJsWhitespace (c : Char) : Bool :=
  c == ' ' || c == '\t' || c == '\n' || c == '\r'

/-- The JS String trim(): drop leading and trailing whitespace.
Implemented over the character list so that it reduces in the kernel. -/
def strTrim (s : String) : String :=
  String.mk
    (((s.data.dropWhile isJsWhitespace).reverse.dropWhile
      isJsWhitespace).reverse)

/-- The sanitizing side of validateCreateExpense: the trim() steps on
category and note rewrite the request body in place. -/
def sanitizeCreateBody (b : RawCreateBody) : RawCreateBody :=
  { b with category := b.category.map strTrim
         , note := b.note.map strTrim }

/-- The checking side of validateCreateExpense on the sanitized body:
amount must be numeric and strictly positive, category non-empty; note
and a well-formed date never fail.  Violations are collected in chain
order, formatted as by errorFormatter. -/
def createViolations (b : RawCreateBody) : List FieldError :=
  (match b.amount with
   | some a => if 0 < a then [] else
       [{ field := "amount", message := "Amount must be a positive number" }]
   | none => [{ field := "amount", message := "Amount must be a positive number" }]) ++
  (match b.category with
   | some c => if c = "" then
       [{ field := "category", message := "Category is required" }] else []
   | none => [{ field := "category", message := "Category is required" }])

/-- The raw query string of GET /expenses after parsing: startDate and
endDate are the new Date(s) values (in UTC milliseconds) of the already
format-checked ISO-8601 parameters; category is the raw string; page and
limit are the parseInt results, none when missing or NaN. -/
structure ExpenseQuery where
  startDate : Option Nat
  endDate : Option Nat
  category : Option String
  page : Option Nat
  limit : Option Nat
deriving DecidableEq

/-- The empty query string. -/
def emptyQuery : ExpenseQuery :=
  { startDate := none, endDate := none, category := none
  , page := none, limit := none }

/-- validateExpenseQuery: the only sanitation is the trim() on the
optional category parameter; the date parameters are format-checked but
passed through, and page and limit are not validated at all. -/
def validateExpenseQuery (q : ExpenseQuery) : ExpenseQuery :=
  { q with category := q.category.map strTrim }

/-- Hex digit check for the UUID format. -/
def isHexDigit (c : Char) : Bool :=
  c.isDigit || (97 ≤ c.toNat && c.toNat ≤ 102) || (65 ≤ c.toNat && c.toNat ≤ 70)

/-- Split a character list on the dash character. -/
def splitDash : List Char → List (List Char)
  | [] => [[]]
  | c :: cs =>
    if c == '-' then [] :: splitDash cs
    else
      match splitDash cs with
      | g :: gs => (c :: g) :: gs
      | [] => [[c]]

/-- express-validator isUUID check used by validateExpenseId: 5
dash-separated groups of hex digits of lengths 8, 4, 4, 4, 12. -/
def isUUID (s : String) : Bool :=
  match splitDash s.data with
  | [a, b, c, d, e] =>
      a.length == 8 && b.length == 4 && c.length == 4 && d.length == 4 &&
      e.length == 12 && (a ++ b ++ c ++ d ++ e).all isHexDigit
  | _ => false

/-! ## Expense repository component
(src/controllers/expense.controller.ts, via prisma) -/

/-- The date sub-object of a prisma where clause: optional gte and lte
bounds in UTC milliseconds. -/
structure DateWhere where
  gte : Option Nat
  lte : Option Nat
deriving DecidableEq

/-- JS date.setUTCHours(0, 0, 0, 0): the start of the calendar day (UTC)
containing the instant. -/
def startOfDayUTC (ms : Nat) : Nat := ms - ms % 86400000

/-- JS date.setUTCHours(23, 59, 59, 999): the last millisecond of the
calendar day (UTC) containing the instant. -/
def endOfDayUTC (ms : Nat) : Nat := ms - ms % 86400000 + 86399999

/-- The where clause both expense read queries build: owner id, optional
date window, optional exact category. -/
structure ListWhere where
  userId : String
  date : Option DateWhere
  category : Option String
deriving DecidableEq

/-- The where clause built by getExpenses (lines 70 to 93 of the expense
controller): a date sub-object only when a bound was supplied, start
bound normalized to the start of its UTC day and end bound to the end of
its UTC day; the category key set only when the category string is
truthy, so the empty string leaves the filter absent. -/
def buildListWhere (userId : String) (startDate endDate : Option Nat)
    (category : Option String) : ListWhere :=
  { userId := userId
  , date :=
      if startDate.isSome || endDate.isSome then
        some { gte := startDate.map startOfDayUTC
             , lte := endDate.map endOfDayUTC }
      else none
  , category :=
      match category with
      | some c => if c = "" then none else some c
      | none => none }

/-- The where clause built by getExpenseSummary (lines 173 to 179): same
shape but the date bounds are the raw parsed instants, with no
normalization, and there is no category filter. -/
def buildSummaryWhere (userId : String) (startDate endDate : Option Nat) :
    ListWhere :=
  { userId := userId
  , date :=
      if startDate.isSome || endDate.isSome then
        some { gte := startDate, lte := endDate }
      else none
  , category := none }

/-- prisma evaluation of a date sub-clause. -/
def matchesDateWhere (w : DateWhere) (d : Nat) : Bool :=
  (match w.gte with | some g => decide (g ≤ d) | none => true) &&
  (match w.lte with | some l => decide (d ≤ l) | none => true)

/-- prisma evaluation of the full where clause against one row. -/
def matchesWhere (w : ListWhere) (e : Expense) : Bool :=
  (e.userId == w.userId) &&
  (match w.date with | some dw => matchesDateWhere dw e.date | none => true) &&
  (match w.category with | some c => e.category == c | none => true)

/-- The orderBy date desc relation handed to the sort: row a precedes
row b when the date of b is at most the date of a. -/
def dateDesc (a b : Expense) : Prop := b.date ≤ a.date

instance : DecidableRel dateDesc := fun a b => Nat.decLe b.date a.date

/-- prisma findMany with where, orderBy date desc, skip and take. -/
def findManyExpenses (store : List Expense) (w : ListWhere)
    (skip take : Nat) : List Expense :=
  (((store.filter (matchesWhere w)).insertionSort dateDesc).drop skip).take take

/-- prisma count with the same where clause. -/
def countExpenses (store : List Expense) (w : ListWhere) : Nat :=
  (store.filter (matchesWhere w)).length

/-- JS parseInt(x) || d on a non-negative parse result: 0 and NaN fall
back to the default. -/
def parseIntOr (v : Option Nat) (d : Nat) : Nat :=
  match v with
  | some n => if n = 0 then d else n
  | none => d

/-- The data part of a successful getExpenses response. -/
structure ListOutput where
  expenses : List Expense
  pagination : Pagination
deriving DecidableEq

/-- getExpenses (lines 56 to 125 of the expense controller): parse page
and limit with defaults 1 and 10, build the where clause, fetch the page
window sorted by date descending, count the matching rows, and derive
totalPages as the ceiling of total over limit, hasNextPage and
hasPrevPage. -/
def getExpensesData (store : List Expense) (userId : String)
    (q : ExpenseQuery) : ListOutput :=
  let page := parseIntOr q.page 1
  let limit := parseIntOr q.limit 10
  let offset := (page - 1) * limit
  let w := buildListWhere userId q.startDate q.endDate q.category
  let expenses := findManyExpenses store w offset limit
  let total := countExpenses store w
  let totalPages := (total + limit - 1) / limit
  { expenses := expenses
  , pagination :=
    { page := page, limit := limit, total := total, totalPages := totalPages
    , hasNextPage := decide (page < totalPages)
    , hasPrevPage := decide (1 < page) } }

/-- The 200 response getExpenses sends. -/
def getExpensesResponse (store : List Expense) (userId : String)
    (q : ExpenseQuery) : Response :=
  let o := getExpensesData store userId q
  { statusCode := 200, status := some "success", message := none
  , errors := none, data := some (RespData.expenses o.expenses o.pagination) }

/-- prisma findFirst on id and userId together, as used by getExpense. -/
def findFirstByIdAndUser (store : List Expense) (i userId : String) :
    Option Expense :=
  store.find? (fun e => e.id == i && e.userId == userId)

/-- prisma findUnique on the primary key id, as used by updateExpense and
deleteExpense. -/
def findUniqueById (store : List Expense) (i : String) : Option Expense :=
  store.find? (fun e => e.id == i)

/-- getExpense (lines 127 to 162): findFirst scoped to both the id and
the authenticated owner, a plain 404 when nothing matches. -/
def getExpense (store : List Expense) (userId i : String) : Response :=
  match findFirstByIdAndUser store i userId with
  | none => appErrorResponse "Expense not found" 404
  | some e =>
    { statusCode := 200, status := some "success", message := none
    , errors := none, data := some (RespData.expense e) }

/-- Sum of the amount column over a list of rows. -/
def sumAmounts (l : List Expense) : Rat := (l.map Expense.amount).sum

/-- prisma groupBy category with sum of amount: one group per distinct
category of the matching rows, in first-occurrence order before the
sort. -/
def groupByCategory (l : List Expense) : List CategoryTotal :=
  ((l.map Expense.category).dedup).map
    (fun c => { category := c
              , sumAmount := sumAmounts (l.filter (fun e => e.category == c)) })

/-- The orderBy sum of amount desc relation of the groupBy call. -/
def sumDesc (a b : CategoryTotal) : Prop := b.sumAmount ≤ a.sumAmount

instance : DecidableRel sumDesc := fun a b =>
  inferInstanceAs (Decidable (b.sumAmount ≤ a.sumAmount))

/-- getExpenseSummary (lines 164 to 215): group the rows matching the
summary where clause by category, order groups by summed amount
descending, and aggregate the grand total, which the JS or-expression
total sum amount or 0 turns into 0 when the aggregate is null (no
matching rows). -/
def getExpenseSummaryData (store : List Expense) (userId : String)
    (startDate endDate : Option Nat) : List CategoryTotal × Rat :=
  let w := buildSummaryWhere userId startDate endDate
  let matching := store.filter (matchesWhere w)
  let groups := (groupByCategory matching).insertionSort sumDesc
  let rawTotal : Option Rat :=
    if matching.isEmpty then none else some (sumAmounts matching)
  (groups, rawTotal.getD 0)

/-- The 200 response getExpenseSummary sends. -/
def getExpenseSummaryResponse (store : List Expense) (userId : String)
    (startDate endDate : Option Nat) : Response :=
  let o := getExpenseSummaryData store userId startDate endDate
  { statusCode := 200, status := some "success", message := none
  , errors := none, data := some (RespData.summary o.1 o.2) }

/-- The typed body createExpense destructures: amount, category, note,
date only — any further keys of the raw body, userId included, are
dropped by the destructuring. -/
structure CreateExpenseRequest where
  amount : Rat
  category : String
  note : Option String
  date : Option Nat
deriving DecidableEq

/-- createExpense (lines 21 to 53): insert a row whose owner is the
authenticated user id, with date defaulting to now, and answer 201 with
the created row. -/
def createExpense (store : List Expense) (userId : String)
    (body : CreateExpenseRequest) (newId : String) (now : Nat) :
    List Expense × Response :=
  let e : Expense :=
    { id := newId, amount := body.amount, category := body.category
    , date := body.date.getD now, note := body.note, userId := userId
    , createdAt := now, updatedAt := now }
  (store ++ [e],
   { statusCode := 201, status := some "success", message := none
   , errors := none, data := some (RespData.expense e) })

/-- POST /expenses as wired in the route file: validate(validateCreateExpense)
sanitizes the body and, on any violation, short-circuits through
next(AppError) into the errorHandler before the controller or the store
is reached; otherwise the controller runs on the sanitized body. -/
def createPipeline (store : List Expense) (userId : String)
    (raw : RawCreateBody) (newId : String) (now : Nat) :
    List Expense × Response :=
  let b := sanitizeCreateBody raw
  let errs := createViolations b
  if errs.isEmpty then
    match b.amount, b.category with
    | some a, some c =>
        createExpense store userId
          { amount := a, category := c, note := b.note, date := b.date }
          newId now
    | _, _ => (store, appErrorResponse "Error creating expense" 500)
  else
    (store, errorHandler (validationFailedError errs))

/-- A raw date query parameter as it reaches validateExpenseQuery: either
an ISO-8601 string, carried with its parsed instant, or a string that is
not ISO-8601. -/
inductive RawDateParam where
  | valid (ms : Nat)
  | invalid (s : String)
deriving DecidableEq

/-- The raw query string of GET /expenses before validation: the date
parameters may be malformed, category is the raw string, page and limit
are the parseInt results. -/
structure RawExpenseQuery where
  startDate : Option RawDateParam
  endDate : Option RawDateParam
  category : Option String
  page : Option Nat
  limit : Option Nat
deriving DecidableEq

/-- The sanitizing side of validateExpenseQuery on the raw query: the
trim() on the optional category parameter. -/
def sanitizeQuery (q : RawExpenseQuery) : RawExpenseQuery :=
  { q with category := q.category.map strTrim }

/-- The checking side of validateExpenseQuery: the optional startDate and
endDate parameters must be ISO-8601, with the messages of the source;
category, page and limit are never checked.  Violations are collected in
chain order, formatted as by errorFormatter. -/
def queryViolations (q : RawExpenseQuery) : List FieldError :=
  (match q.startDate with
   | some (.invalid _) =>
       [{ field := "startDate"
        , message := "Invalid start date format. Use ISO8601 format" }]
   | _ => []) ++
  (match q.endDate with
   | some (.invalid _) =>
       [{ field := "endDate"
        , message := "Invalid end date format. Use ISO8601 format" }]
   | _ => [])

/-- The parsed query the controller sees once validation has passed:
every surviving date parameter carries its parsed instant. -/
def toExpenseQuery (q : RawExpenseQuery) : ExpenseQuery :=
  { startDate := q.startDate.bind
      (fun d => match d with | .valid ms => some ms | .invalid _ => none)
  , endDate := q.endDate.bind
      (fun d => match d with | .valid ms => some ms | .invalid _ => none)
  , category := q.category, page := q.page, limit := q.limit }

/-- GET /expenses as wired in the route file: validate(validateExpenseQuery)
sanitizes the query and, on any violation, short-circuits through
next(AppError) into the errorHandler before the controller runs a single
store query; otherwise getExpenses runs on the parsed query. -/
def listPipeline (store : List Expense) (uid : String)
    (raw : RawExpenseQuery) : Response :=
  let q := sanitizeQuery raw
  let errs := queryViolations q
  if errs.isEmpty then getExpensesResponse store uid (toExpenseQuery q)
  else errorHandler (validationFailedError errs)

/-- The raw JSON body of PATCH /expenses/:id.  Beyond the four updatable
fields it can carry id, userId and createdAt keys, which the controller
destructuring never reads. -/
structure RawUpdateBody where
  amount : Option Rat
  category : Option String
  note : Option String
  date : Option Nat
  id : Option String
  userId : Option String
  createdAt : Option Nat
deriving DecidableEq

/-- prisma update data semantics: a key whose value is undefined (none)
is skipped, so the column keeps its prior value; updatedAt is bumped by
the prisma updatedAt attribute. -/
def applyUpdate (e : Expense) (amount : Option Rat)
    (category note : Option String) (date : Option Nat) (now : Nat) :
    Expense :=
  { e with
    amount := amount.getD e.amount
    category := category.getD e.category
    note := match note with | some n => some n | none => e.note
    date := date.getD e.date
    updatedAt := now }

/-- updateExpense (lines 217 to 263): findUnique on the id alone, 404
when no row exists, 403 when the row belongs to a different owner, and
only then the prisma update with the four destructured fields. -/
def updateExpense (store : List Expense) (userId i : String)
    (body : RawUpdateBody) (now : Nat) : List Expense × Response :=
  match findUniqueById store i with
  | none => (store, appErrorResponse "Expense not found" 404)
  | some existing =>
    if existing.userId ≠ userId then
      (store, appErrorResponse "Not authorized to update this expense" 403)
    else
      let updated := applyUpdate existing body.amount body.category
        body.note body.date now
      (store.map (fun e => if e.id == i then
          applyUpdate e body.amount body.category body.note body.date now
        else e),
       { statusCode := 200, status := some "success", message := none
       , errors := none, data := some (RespData.expense updated) })

/-- deleteExpense (lines 265 to 302): same findUnique, 404, 403 sequence,
then the prisma delete and a 204 with data null. -/
def deleteExpense (store : List Expense) (userId i : String) :
    List Expense × Response :=
  match findUniqueById store i with
  | none => (store, appErrorResponse "Expense not found" 404)
  | some existing =>
    if existing.userId ≠ userId then
      (store, appErrorResponse "Not authorized to delete this expense" 403)
    else
      (store.filter (fun e => !(e.id == i)),
       { statusCode := 204, status := some "success", message := none
       , errors := none, data := some RespData.null })

/-! ## Auth controllers (src/backend/src/controllers/auth.controller.ts) -/

/-- register: a duplicate email answers a bare 400 body with only a
message key and no status key; otherwise the user is created with the
hashed password and a 201 with the password-free user and a fresh 7-day
token is sent. -/
def register (users : List User) (name email password : String)
    (hash : String → String) (newId : String) (now : Nat) :
    List User × Response :=
  match users.find? (fun u => u.email == email) with
  | some _ =>
      (users,
       { statusCode := 400, status := none
       , message := some "User already exists", errors := none, data := none })
  | none =>
    let u : User :=
      { id := newId, email := email, name := name, password := hash password
      , createdAt := now, updatedAt := now }
    let t : Token :=
      { id := u.id, email := u.email, issuedAt := now, signatureValid := true }
    (users ++ [u],
     { statusCode := 201, status := some "success", message := none
     , errors := none, data := some (RespData.userAndToken (publicOf u) t) })

/-- login: both failure branches (unknown email, wrong password) answer
401 with status error and message Invalid credentials; success answers
200 with a fresh 7-day token.  The bcrypt compare is taken as a
parameter, the library being external. -/
def login (users : List User) (email password : String)
    (compare : String → String → Bool) (now : Nat) : Response :=
  match users.find? (fun u => u.email == email) with
  | none =>
      { statusCode := 401, status := some "error"
      , message := some "Invalid credentials", errors := none, data := none }
  | some u =>
    if compare password u.password then
      { statusCode := 200, status := some "success", message := none
      , errors := none
      , data := some (RespData.token
          { id := u.id, email := u.email, issuedAt := now
          , signatureValid := true }) }
    else
      { statusCode := 401, status := some "error"
      , message := some "Invalid credentials", errors := none, data := none }

/-! ## Route registration order of the expense router
(src/routes/expense.routes.ts, second router of the routes source) -/

/-- HTTP methods used by the expense router. -/
inductive Method where
  | get
  | post
  | patch
  | del
deriving DecidableEq

/-- A path pattern under the /expenses mount: the bare mount path, a
single named parameter segment, or a literal segment. -/
inductive Pat where
  | root
  | param
  | lit (s : String)
deriving DecidableEq

/-- The six handlers of the expense router. -/
inductive ExpenseRoute where
  | createRoute
  | listRoute
  | getByIdRoute
  | summaryRoute
  | updateRoute
  | deleteRoute
deriving DecidableEq

/-- Express pattern matching for one path segment under the mount:
none is the bare mount path, some s a single segment s. -/
def patMatches : Pat → Option String → Bool
  | .root, none => true
  | .param, some _ => true
  | .lit l, some s => l == s
  | _, _ => false

/-- The routes in their registration order in the source: the GET :id
route is registered before the GET summary route. -/
def expenseRoutes : List (Method × Pat × ExpenseRoute) :=
  [ (.post, .root, .createRoute)
  , (.get, .root, .listRoute)
  , (.get, .param, .getByIdRoute)
  , (.get, .lit "summary", .summaryRoute)
  , (.patch, .param, .updateRoute)
  , (.del, .param, .deleteRoute) ]

/-- Express dispatch: the first registered route whose method and
pattern match wins. -/
def dispatch (m : Method) (path : Option String) : Option ExpenseRoute :=
  (expenseRoutes.find?
    (fun r => decide (r.1 = m) && patMatches r.2.1 path)).map
    (fun r => r.2.2)

/-- A GET request under the /expenses mount for an authenticated user:
dispatch on the registration order, then run the middleware chain of the
matched route.  The :id route first runs validate(validateExpenseId),
which rejects a non-UUID id with a 400 Validation failed before the
controller. -/
def handleGet (store : List Expense) (userId : String)
    (path : Option String) (q : ExpenseQuery) : Response :=
  match dispatch .get path with
  | some .listRoute => getExpensesResponse store userId (validateExpenseQuery q)
  | some .getByIdRoute =>
    match path with
    | some i =>
      if isUUID i then getExpense store userId i
      else errorHandler (validationFailedError
        [{ field := "id", message := "Invalid expense ID format" }])
    | none => appErrorResponse "Expense not found" 404
  | some .summaryRoute =>
      let q2 := validateExpenseQuery q
      getExpenseSummaryResponse store userId q2.startDate q2.endDate
  | _ => appErrorResponse "Not found" 404

/-! ## Concrete fixtures used by the witnesses and counterexamples -/

/-- A one-user store. -/
def demoUsers : List User :=
  [{ id := "userA", email := "a@example.com", name := "Alice"
   , password := "hash", createdAt := 0, updatedAt := 0 }]

/-- An expense of user userA, dated 2024-01-01T00:00:00Z. -/
def demoExpenseFood : Expense :=
  { id := "11111111-1111-1111-1111-111111111111", amount := 10
  , category := "food", date := 1704067200000, note := none
  , userId := "userA", createdAt := 0, updatedAt := 0 }

/-- A second expense of user userA, same day, other category. -/
def demoExpenseTravel : Expense :=
  { id := "22222222-2222-2222-2222-222222222222", amount := 20
  , category := "travel", date := 1704070000000, note := none
  , userId := "userA", createdAt := 0, updatedAt := 0 }

/-- A two-expense store owned by userA. -/
def demoStore : List Expense := [demoExpenseFood, demoExpenseTravel]

/-- A correctly signed token for userA issued at time 0. -/
def demoToken : Token :=
  { id := "userA", email := "a@example.com", issuedAt := 0
  , signatureValid := true }

/-- The decimal digit characters, for generating fixture ids. -/
def digitChar (n : Nat) : Char := Char.ofNat (48 + n)

/-- Fuel-driven decimal rendering of a natural number. -/
def natToStrAux : Nat → Nat → List Char
  | 0, _ => []
  | fuel + 1, n =>
    if n < 10 then [digitChar n]
    else natToStrAux fuel (n / 10) ++ [digitChar (n % 10)]

/-- Decimal rendering of a natural number (fixture ids only). -/
def natToStr (n : Nat) : String := String.mk (natToStrAux (n + 1) n)

/-- A store of 25 expenses of user userA with pairwise distinct dates. -/
def store25 : List Expense :=
  (List.range 25).map (fun (i : Nat) =>
    { id := natToStr i, amount := 1, category := "c"
    , date := 1000 * i, note := none, userId := "userA"
    , createdAt := 0, updatedAt := 0 })

/-- The query page=2, limit=10 and no filters. -/
def q25 : ExpenseQuery := { emptyQuery with page := some 2, limit := some 10 }

/-- An update body that also smuggles id, userId and createdAt values,
which the controller destructuring drops. -/
def demoUpdateBody : RawUpdateBody :=
  { amount := some 7, category := none, note := none, date := none
  , id := some "hacked", userId := some "userB", createdAt := some 999 }

/-- A create body violating the amount rule and, after trimming, the
category rule. -/
def demoBadCreateBody : RawCreateBody :=
  { amount := some (-5), category := some "  ", note := none
  , date := none, userId := none }

/-- A valid create body that also smuggles a client-supplied userId. -/
def demoCreateBody : RawCreateBody :=
  { amount := some 12, category := some " Food ", note := some "lunch"
  , date := none, userId := some "mallory" }

/-- A list query with a malformed startDate parameter. -/
def demoBadQuery : RawExpenseQuery :=
  { startDate := some (.invalid "not-a-date"), endDate := none
  , category := some "food", page := none, limit := none }

/-- The rows of a store matching the where clause getExpenses builds
from a query. -/
def matchingExpenses (store : List Expense) (uid : String)
    (q : ExpenseQuery) : List Expense :=
  store.filter (matchesWhere (buildListWhere uid q.startDate q.endDate q.category))

instance : IsTotal Expense dateDesc := ⟨fun a b => Nat.le_total b.date a.date⟩

instance : IsTrans Expense dateDesc :=
  ⟨fun _ _ _ hab hbc => Nat.le_trans hbc hab⟩

/-! ## Theorems -/

/-- Helper: a find on the primary key returns the row when the key is
unique in the store. -/
theorem findUniqueById_eq_some {store : List Expense} {e : Expense}
    (he : e ∈ store) (hu : ∀ x ∈ store, x.id = e.id → x = e) :
    findUniqueById store e.id = some e := by
  induction store with
  | nil => cases he
  | cons y ys ih =>
    by_cases hy : y.id = e.id
    · have hye : y = e := hu y (List.mem_cons_self y ys) hy
      subst hye
      simp [findUniqueById, List.find?]
    · have he2 : e ∈ ys := by
        rcases List.mem_cons.mp he with h | h
        · exact absurd (h ▸ rfl) hy
        · exact h
      have hyb : (y.id == e.id) = false := beq_eq_false_iff_ne.mpr hy
      have step : findUniqueById (y :: ys) e.id = findUniqueById ys e.id := by
        simp [findUniqueById, List.find?, hyb]
      rw [step]
      exact ih he2 (fun x hx hid => hu x (List.mem_cons_of_mem _ hx) hid)

/-- Helper: the parsed page and limit values are at least 1 when the
default is. -/
theorem one_le_parseIntOr (v : Option Nat) (d : Nat) (hd : 1 ≤ d) :
    1 ≤ parseIntOr v d := by
  cases v with
  | none => exact hd
  | some n =>
    by_cases h : n = 0
    · simp [parseIntOr, h]; omega
    · simp [parseIntOr, h]; omega

/-- Helper: the value (t + l - 1) / l is the ceiling of t over l: it is
the least number of pages of size l covering t rows. -/
theorem ceil_bounds (t l : Nat) (hl : 1 ≤ l) :
    t ≤ ((t + l - 1) / l) * l ∧ ((t + l - 1) / l) * l < t + l := by
  have h1 : ((t + l - 1) / l) * l = (t + l - 1) - (t + l - 1) % l := by
    rw [Nat.mul_comm]
    exact Nat.eq_sub_of_add_eq (Nat.div_add_mod _ _)
  have hrl : (t + l - 1) % l < l := Nat.mod_lt _ hl
  rw [h1]
  generalize (t + l - 1) % l = r at hrl ⊢
  omega

set_option maxRecDepth 10000 in
/-- Helper: for every three-digit code the AppError status string is
fail exactly on the 4xx range and error on the 5xx range. -/
theorem statusForCode_of_bounds :
    ∀ c, c < 600 → 400 ≤ c →
    statusForCode c = if c < 500 then "fail" else "error" := by decide

/-- C1: the claim that GET /expenses/summary returns the per-category
totals and grand total fails on the code.  The GET :id route is
registered before the GET summary route, so Express dispatches the path
summary to the getById chain; there the UUID validator rejects the id
summary, and the request ends in a 400 Validation failed with no data.
The summary controller itself, which would return the ordered category
totals and the grand total, is unreachable through its route: evaluated
directly on the same store it answers the grouped sums. -/
theorem summaryRouteIsShadowedByIdRoute :
    dispatch Method.get (some "summary") = some ExpenseRoute.getByIdRoute
    ∧ handleGet demoStore "userA" (some "summary") emptyQuery =
        errorHandler (validationFailedError
          [{ field := "id", message := "Invalid expense ID format" }])
    ∧ (handleGet demoStore "userA" (some "summary") emptyQuery).statusCode = 400
    ∧ (handleGet demoStore "userA" (some "summary") emptyQuery).data = none
    ∧ getExpenseSummaryData demoStore "userA" none none =
        ([{ category := "travel", sumAmount := 20 }
         , { category := "food", sumAmount := 10 }], 30) := by
  refine ⟨by decide, by decide, by decide, by decide, ?_⟩
  simp [getExpenseSummaryData, buildSummaryWhere, matchesWhere, matchesDateWhere,
    groupByCategory, sumAmounts, demoStore, demoExpenseFood, demoExpenseTravel,
    List.dedup, List.insertionSort, List.orderedInsert, sumDesc]
  norm_num

/-- C2: the claim that an expired token fails with the distinct
expired-token reason is violated by the code.  TokenExpiredError is a
subclass of JsonWebTokenError and the catch block of the protect
middleware tests the superclass first, so a token presented after the
7-day expiry gets the invalid-token message, and the two failure reasons
are conflated: both error classes produce the identical response. -/
theorem expiredTokenGetsInvalidTokenReason :
    jwtVerify demoToken 604800 = .error .tokenExpired
    ∧ protect demoUsers demoToken 604800 =
        .error { statusCode := 401, status := some "fail"
               , message := some "Invalid token. Please log in again!"
               , errors := none, data := none }
    ∧ protectCatch JwtError.tokenExpired = protectCatch JwtError.jsonWebToken
    ∧ (protectCatch JwtError.tokenExpired).message ≠
        some "Your token has expired! Please log in again." := by decide

/-- C3: for any two distinct users a and b and an expense of a, the
getById of b on that id fails with the plain 404 used for nonexistent
ids (and is literally equal to the response for an id no row has), the
update and delete of b fail with the 403 Forbidden responses, which
differ from the 404, the store is returned unchanged by both write
attempts, and no expense data is returned to b. -/
theorem crossUserRequestsIsolated :
    ∀ (store : List Expense) (a b : String) (e : Expense)
      (body : RawUpdateBody) (now : Nat),
    a ≠ b → e ∈ store → e.userId = a →
    (∀ x ∈ store, x.id = e.id → x = e) →
    getExpense store b e.id = appErrorResponse "Expense not found" 404
    ∧ (∀ j, (∀ x ∈ store, x.id ≠ j) →
        getExpense store b e.id = getExpense store b j)
    ∧ updateExpense store b e.id body now =
        (store, appErrorResponse "Not authorized to update this expense" 403)
    ∧ deleteExpense store b e.id =
        (store, appErrorResponse "Not authorized to delete this expense" 403)
    ∧ appErrorResponse "Not authorized to update this expense" 403 ≠
        appErrorResponse "Expense not found" 404
    ∧ (getExpense store b e.id).data = none := by
  intro store a b e body now hab he hea hu
  have hget : findFirstByIdAndUser store e.id b = none := by
    apply List.find?_eq_none.mpr
    intro x hx hpx
    rw [Bool.and_eq_true, beq_iff_eq, beq_iff_eq] at hpx
    have hxe : x = e := hu x hx hpx.1
    exact hab (by rw [← hea, ← hpx.2, hxe])
  have hfu : findUniqueById store e.id = some e := findUniqueById_eq_some he hu
  have hne : e.userId ≠ b := by rw [hea]; exact hab
  refine ⟨?_, ?_, ?_, ?_, by decide, ?_⟩
  · simp [getExpense, hget]
  · intro j hj
    have hj2 : findFirstByIdAndUser store j b = none := by
      apply List.find?_eq_none.mpr
      intro x hx hpx
      rw [Bool.and_eq_true, beq_iff_eq, beq_iff_eq] at hpx
      exact hj x hx hpx.1
    simp [getExpense, hget, hj2]
  · simp [updateExpense, hfu, hne]
  · simp [deleteExpense, hfu, hne]
  · simp [getExpense, hget, appErrorResponse, errorHandler]

/-- Witness for C3 at a concrete two-user scenario. -/
theorem crossUserRequestsIsolated_witness :
    getExpense demoStore "userB" demoExpenseFood.id =
      appErrorResponse "Expense not found" 404 :=
  (crossUserRequestsIsolated demoStore "userA" "userB" demoExpenseFood
    demoUpdateBody 0 (by decide) (by decide) (by decide) (by decide)).1

/-- C4 counterexample: the claim that the summary operation normalizes
endDate to 23:59:59.999 UTC of its day is false.  With startDate and
endDate both parsed from 2024-01-01 (instant 1704067200000), the expense
dated 2024-01-01T23:00:00Z (instant 1704150000000) is excluded by the
summary where clause, so the summary over a store holding exactly that
expense is empty with total 0, whereas the list operation on the same
query includes it. -/
theorem summaryEndDateNotNormalized :
    matchesWhere (buildSummaryWhere "userA" (some 1704067200000)
      (some 1704067200000)) { demoExpenseFood with date := 1704150000000 } = false
    ∧ getExpenseSummaryData [{ demoExpenseFood with date := 1704150000000 }]
        "userA" (some 1704067200000) (some 1704067200000) = ([], 0)
    ∧ (getExpensesData [{ demoExpenseFood with date := 1704150000000 }] "userA"
        { emptyQuery with startDate := some 1704067200000
                        , endDate := some 1704067200000 }).pagination.total = 1
    := by decide

/-- C4 as amended: only the list operation normalizes the supplied
bounds, its startDate to 00:00:00.000 UTC and its endDate to
23:59:59.999 UTC of their calendar days, so a list row matches exactly
when its calendar day lies between the two boundary days; the summary
operation compares the raw parsed instants, so its range ends at the
very instant of the parsed endDate. -/
theorem listDatesNormalizedSummaryDatesRaw :
    ∀ (uid : String) (s e : Nat) (exp : Expense), exp.userId = uid →
    (matchesWhere (buildListWhere uid (some s) (some e) none) exp = true ↔
      s / 86400000 ≤ exp.date / 86400000 ∧ exp.date / 86400000 ≤ e / 86400000)
    ∧ (matchesWhere (buildSummaryWhere uid (some s) (some e)) exp = true ↔
      s ≤ exp.date ∧ exp.date ≤ e) := by
  intro uid s e exp h
  constructor
  · simp [matchesWhere, buildListWhere, matchesDateWhere, startOfDayUTC,
      endOfDayUTC, h]
    omega
  · simp [matchesWhere, buildSummaryWhere, matchesDateWhere, h]

/-- Witness for C4 as amended at a concrete expense and day. -/
theorem listDatesNormalizedSummaryDatesRaw_witness :
    matchesWhere (buildListWhere "userA" (some 1704067200000)
        (some 1704067200000) none) demoExpenseFood = true ↔
      1704067200000 / 86400000 ≤ demoExpenseFood.date / 86400000 ∧
      demoExpenseFood.date / 86400000 ≤ 1704067200000 / 86400000 :=
  (listDatesNormalizedSummaryDatesRaw "userA" 1704067200000 1704067200000
    demoExpenseFood rfl).1

/-- C5 counterexample: the claim that the 400 validation response
carries the list of field and message violation pairs is false.  On a
create body violating the amount rule the pipeline answers 400, but the
response body holds no errors key: the errorHandler spreads only status
and message into the body. -/
theorem validationResponseOmitsViolationList :
    createViolations (sanitizeCreateBody
      { amount := some (-5), category := some "Food", note := none
      , date := none, userId := none }) =
      [{ field := "amount", message := "Amount must be a positive number" }]
    ∧ (createPipeline [] "userA"
        { amount := some (-5), category := some "Food", note := none
        , date := none, userId := none } "id1" 0).2.statusCode = 400
    ∧ (createPipeline [] "userA"
        { amount := some (-5), category := some "Food", note := none
        , date := none, userId := none } "id1" 0).2.errors = none
    ∧ (createPipeline [] "userA"
        { amount := some (-5), category := some "Food", note := none
        , date := none, userId := none } "id1" 0).1 = []
    := by decide

/-- C5 as amended: any violated rule, on an expense payload or on a
query, rejects the request with a single 400 Validation failed response
of status fail, before any store access or mutation: the create pipeline
returns the store unchanged, and the rejected list query produces the
identical response over any two stores, so no store data enters it; the
aggregated field and message pairs are attached to the internal error
object but omitted from the response body in both cases. -/
theorem validationRejectsBeforeStoreAccess :
    ∀ (store store2 : List Expense) (uid : String) (raw : RawCreateBody)
      (newId : String) (now : Nat) (rawQ : RawExpenseQuery),
    (createViolations (sanitizeCreateBody raw) ≠ [] →
      createPipeline store uid raw newId now =
        (store, errorHandler (validationFailedError
          (createViolations (sanitizeCreateBody raw))))
      ∧ (createPipeline store uid raw newId now).2.statusCode = 400
      ∧ (createPipeline store uid raw newId now).2.status = some "fail"
      ∧ (validationFailedError (createViolations (sanitizeCreateBody raw))).errors
          = some (createViolations (sanitizeCreateBody raw))
      ∧ (createPipeline store uid raw newId now).2.errors = none)
    ∧ (queryViolations (sanitizeQuery rawQ) ≠ [] →
      listPipeline store uid rawQ =
        errorHandler (validationFailedError (queryViolations (sanitizeQuery rawQ)))
      ∧ listPipeline store uid rawQ = listPipeline store2 uid rawQ
      ∧ (listPipeline store uid rawQ).statusCode = 400
      ∧ (listPipeline store uid rawQ).status = some "fail"
      ∧ (validationFailedError (queryViolations (sanitizeQuery rawQ))).errors
          = some (queryViolations (sanitizeQuery rawQ))
      ∧ (listPipeline store uid rawQ).errors = none
      ∧ (listPipeline store uid rawQ).data = none) := by
  intro store store2 uid raw newId now rawQ
  constructor
  · intro h
    have hne : (createViolations (sanitizeCreateBody raw)).isEmpty = false := by
      cases hc : createViolations (sanitizeCreateBody raw) with
      | nil => exact absurd hc h
      | cons x xs => rfl
    have hmain : createPipeline store uid raw newId now =
        (store, errorHandler (validationFailedError
          (createViolations (sanitizeCreateBody raw)))) := by
      simp [createPipeline, hne]
    refine ⟨hmain, ?_, ?_, rfl, ?_⟩
    · rw [hmain]; rfl
    · rw [hmain]; rfl
    · rw [hmain]; rfl
  · intro h
    have hne : (queryViolations (sanitizeQuery rawQ)).isEmpty = false := by
      cases hc : queryViolations (sanitizeQuery rawQ) with
      | nil => exact absurd hc h
      | cons x xs => rfl
    have hmain : listPipeline store uid rawQ =
        errorHandler (validationFailedError
          (queryViolations (sanitizeQuery rawQ))) := by
      simp [listPipeline, hne]
    have hmain2 : listPipeline store2 uid rawQ =
        errorHandler (validationFailedError
          (queryViolations (sanitizeQuery rawQ))) := by
      simp [listPipeline, hne]
    refine ⟨hmain, ?_, ?_, ?_, rfl, ?_, ?_⟩
    · rw [hmain, hmain2]
    · rw [hmain]; rfl
    · rw [hmain]; rfl
    · rw [hmain]; rfl
    · rw [hmain]; rfl

/-- Witness for C5 as amended at a concrete invalid body and a concrete
query with a malformed startDate. -/
theorem validationRejectsBeforeStoreAccess_witness :
    createPipeline [] "userA" demoBadCreateBody "id1" 0 =
      ([], errorHandler (validationFailedError
        (createViolations (sanitizeCreateBody demoBadCreateBody))))
    ∧ listPipeline demoStore "userA" demoBadQuery =
        errorHandler (validationFailedError
          (queryViolations (sanitizeQuery demoBadQuery))) :=
  ⟨((validationRejectsBeforeStoreAccess [] [] "userA" demoBadCreateBody
      "id1" 0 demoBadQuery).1 (by decide)).1,
   ((validationRejectsBeforeStoreAccess demoStore [] "userA" demoBadCreateBody
      "id1" 0 demoBadQuery).2 (by decide)).1⟩

/-- C6: for every owner, filter and query the list operation returns the
window of size limit at offset (page - 1) * limit of the matching rows
sorted by date descending (a permutation of the matching rows), hence at
most limit rows; the reported total is the count of all matching rows,
independent of the window; totalPages is the ceiling of total over limit
(characterized by the two product bounds); hasNextPage is page <
totalPages and hasPrevPage is page > 1.  On the concrete store of 25
matching rows with limit 10 and page 2, exactly 10 rows come back with
total 25, totalPages 3, and both page flags true. -/
theorem listPaginationContract :
    ∀ (store : List Expense) (uid : String) (q : ExpenseQuery),
    (getExpensesData store uid q).expenses =
      (((matchingExpenses store uid q).insertionSort dateDesc).drop
        ((parseIntOr q.page 1 - 1) * parseIntOr q.limit 10)).take
        (parseIntOr q.limit 10)
    ∧ (getExpensesData store uid q).expenses.length ≤ parseIntOr q.limit 10
    ∧ ((matchingExpenses store uid q).insertionSort dateDesc).Perm
        (matchingExpenses store uid q)
    ∧ (getExpensesData store uid q).expenses.Pairwise dateDesc
    ∧ (getExpensesData store uid q).pagination.total =
        (matchingExpenses store uid q).length
    ∧ (getExpensesData store uid q).pagination.total ≤
        (getExpensesData store uid q).pagination.totalPages * parseIntOr q.limit 10
    ∧ (getExpensesData store uid q).pagination.totalPages * parseIntOr q.limit 10 <
        (getExpensesData store uid q).pagination.total + parseIntOr q.limit 10
    ∧ (getExpensesData store uid q).pagination.page = parseIntOr q.page 1
    ∧ (getExpensesData store uid q).pagination.limit = parseIntOr q.limit 10
    ∧ (getExpensesData store uid q).pagination.hasNextPage =
        decide ((getExpensesData store uid q).pagination.page <
          (getExpensesData store uid q).pagination.totalPages)
    ∧ (getExpensesData store uid q).pagination.hasPrevPage =
        decide (1 < (getExpensesData store uid q).pagination.page)
    ∧ (getExpensesData store25 "userA" q25).expenses.length = 10
    ∧ (getExpensesData store25 "userA" q25).pagination.total = 25
    ∧ (getExpensesData store25 "userA" q25).pagination.totalPages = 3
    ∧ (getExpensesData store25 "userA" q25).pagination.hasNextPage = true
    ∧ (getExpensesData store25 "userA" q25).pagination.hasPrevPage = true := by
  intro store uid q
  have hl : 1 ≤ parseIntOr q.limit 10 := one_le_parseIntOr _ _ (by omega)
  have hceil := ceil_bounds ((matchingExpenses store uid q).length)
    (parseIntOr q.limit 10) hl
  have h0 : (getExpensesData store uid q).expenses =
      (((matchingExpenses store uid q).insertionSort dateDesc).drop
        ((parseIntOr q.page 1 - 1) * parseIntOr q.limit 10)).take
        (parseIntOr q.limit 10) := rfl
  have hs : ((matchingExpenses store uid q).insertionSort dateDesc).Pairwise
      dateDesc := List.sorted_insertionSort dateDesc _
  have hsub : (getExpensesData store uid q).expenses.Sublist
      ((matchingExpenses store uid q).insertionSort dateDesc) := by
    rw [h0]
    exact (List.take_sublist _ _).trans (List.drop_sublist _ _)
  refine ⟨h0, ?_, List.perm_insertionSort _ _, hs.sublist hsub, rfl,
    hceil.1, hceil.2, rfl, rfl, rfl, rfl,
    by decide, by decide, by decide, by decide, by decide⟩
  rw [h0, List.length_take]
  omega

/-- C7 counterexample: the claim that every 4xx failure response carries
status fail is false.  The login controller answers its 401
invalid-credentials failures with status error, and the register
controller answers the duplicate-email 400 with a body that has no
status field at all. -/
theorem clientErrorResponsesBreakEnvelope :
    (login [] "x@y.z" "pw" (fun _ _ => false) 0).statusCode = 401
    ∧ (login [] "x@y.z" "pw" (fun _ _ => false) 0).status = some "error"
    ∧ (login [] "x@y.z" "pw" (fun _ _ => false) 0).status ≠ some "fail"
    ∧ (register demoUsers "A" "a@example.com" "pw" (fun s => s) "u9" 0).2.statusCode = 400
    ∧ (register demoUsers "A" "a@example.com" "pw" (fun s => s) "u9" 0).2.status = none
    := by decide

/-- C7 as amended: failures shaped by AppError and the errorHandler do
follow the envelope, carrying status fail for every 4xx code and error
for every 5xx code; but the login controller hard-codes status error on
its 401 invalid-credentials responses, and the register duplicate-email
400 response omits the status field. -/
theorem errorEnvelopeStatusConvention :
    (∀ (m : String) (c : Nat), c < 600 → 400 ≤ c →
      (errorHandler (mkAppError m c)).statusCode = c
      ∧ (errorHandler (mkAppError m c)).status =
          some (if c < 500 then "fail" else "error"))
    ∧ (login [] "x@y.z" "pw" (fun _ _ => false) 0).status = some "error"
    ∧ (register demoUsers "A" "a@example.com" "pw" (fun s => s) "u9" 0).2.status = none := by
  refine ⟨fun m c h1 h2 => ⟨rfl, ?_⟩, by decide, by decide⟩
  show some (statusForCode c) = _
  rw [statusForCode_of_bounds c h1 h2]

/-- Witness for C7 as amended at the 404 code. -/
theorem errorEnvelopeStatusConvention_witness :
    (errorHandler (mkAppError "Expense not found" 404)).statusCode = 404
    ∧ (errorHandler (mkAppError "Expense not found" 404)).status =
        some (if 404 < 500 then "fail" else "error") :=
  errorEnvelopeStatusConvention.1 "Expense not found" 404 (by decide) (by decide)

/-- C8: for every create body passing validation, the pipeline appends
exactly one row whose userId is the authenticated caller id — the body
is arbitrary, so in particular any client-supplied userId value in it is
ignored — and returns that row with status 201. -/
theorem createOwnerIsAuthenticatedUser :
    ∀ (store : List Expense) (uid : String) (raw : RawCreateBody)
      (newId : String) (now : Nat),
    createViolations (sanitizeCreateBody raw) = [] →
    ∃ e2 : Expense,
      createPipeline store uid raw newId now =
        (store ++ [e2],
         { statusCode := 201, status := some "success", message := none
         , errors := none, data := some (RespData.expense e2) })
      ∧ e2.userId = uid := by
  intro store uid raw newId now h
  cases hA : (sanitizeCreateBody raw).amount with
  | none => exfalso; simp [createViolations, hA] at h
  | some a =>
    cases hC : (sanitizeCreateBody raw).category with
    | none => exfalso; simp [createViolations, hA, hC] at h
    | some c =>
      refine ⟨{ id := newId, amount := a, category := c
              , date := (sanitizeCreateBody raw).date.getD now
              , note := (sanitizeCreateBody raw).note, userId := uid
              , createdAt := now, updatedAt := now }, ?_, rfl⟩
      have hempty : (createViolations (sanitizeCreateBody raw)).isEmpty = true := by
        rw [h]; rfl
      simp [createPipeline, hempty, hA, hC, createExpense]

/-- Witness for C8 at a valid body carrying a client userId. -/
theorem createOwnerIsAuthenticatedUser_witness :
    ∃ e2 : Expense,
      createPipeline [] "userA" demoCreateBody "e1" 5 =
        ([] ++ [e2],
         { statusCode := 201, status := some "success", message := none
         , errors := none, data := some (RespData.expense e2) })
      ∧ e2.userId = "userA" :=
  createOwnerIsAuthenticatedUser [] "userA" demoCreateBody "e1" 5 (by decide)

/-- C9: for every update by the owner, the stored row and the returned
row change exactly the supplied fields among amount, category, note and
date: a missing field keeps its prior value, a supplied field takes the
supplied value, and id, userId and createdAt are unchanged for every
request body, including bodies that carry id, userId or createdAt
values; rows with a different id are untouched. -/
theorem ownerUpdatePartialFieldsFrame :
    ∀ (store : List Expense) (uid i : String) (raw : RawUpdateBody)
      (now : Nat) (e : Expense),
    findUniqueById store i = some e → e.userId = uid →
    (updateExpense store uid i raw now).2 =
      { statusCode := 200, status := some "success", message := none
      , errors := none
      , data := some (RespData.expense
          (applyUpdate e raw.amount raw.category raw.note raw.date now)) }
    ∧ (updateExpense store uid i raw now).1 =
        store.map (fun x => if x.id == i then
          applyUpdate x raw.amount raw.category raw.note raw.date now else x)
    ∧ (applyUpdate e raw.amount raw.category raw.note raw.date now).id = e.id
    ∧ (applyUpdate e raw.amount raw.category raw.note raw.date now).userId = e.userId
    ∧ (applyUpdate e raw.amount raw.category raw.note raw.date now).createdAt = e.createdAt
    ∧ (raw.amount = none →
        (applyUpdate e raw.amount raw.category raw.note raw.date now).amount = e.amount)
    ∧ (∀ a, raw.amount = some a →
        (applyUpdate e raw.amount raw.category raw.note raw.date now).amount = a)
    ∧ (raw.category = none →
        (applyUpdate e raw.amount raw.category raw.note raw.date now).category = e.category)
    ∧ (∀ c, raw.category = some c →
        (applyUpdate e raw.amount raw.category raw.note raw.date now).category = c)
    ∧ (raw.note = none →
        (applyUpdate e raw.amount raw.category raw.note raw.date now).note = e.note)
    ∧ (∀ n, raw.note = some n →
        (applyUpdate e raw.amount raw.category raw.note raw.date now).note = some n)
    ∧ (raw.date = none →
        (applyUpdate e raw.amount raw.category raw.note raw.date now).date = e.date)
    ∧ (∀ d, raw.date = some d →
        (applyUpdate e raw.amount raw.category raw.note raw.date now).date = d)
    ∧ (∀ x ∈ store, x.id ≠ i → x ∈ (updateExpense store uid i raw now).1) := by
  intro store uid i raw now e h1 h2
  have hmain : updateExpense store uid i raw now =
      (store.map (fun x => if x.id == i then
          applyUpdate x raw.amount raw.category raw.note raw.date now else x),
       { statusCode := 200, status := some "success", message := none
       , errors := none
       , data := some (RespData.expense
           (applyUpdate e raw.amount raw.category raw.note raw.date now)) }) := by
    simp [updateExpense, h1, h2]
  refine ⟨by rw [hmain], by rw [hmain], rfl, rfl, rfl,
    ?_, ?_, ?_, ?_, ?_, ?_, ?_, ?_, ?_⟩
  · intro ha; simp [applyUpdate, ha]
  · intro a ha; simp [applyUpdate, ha]
  · intro hc; simp [applyUpdate, hc]
  · intro c hc; simp [applyUpdate, hc]
  · intro hn; simp [applyUpdate, hn]
  · intro n hn; simp [applyUpdate, hn]
  · intro hd; simp [applyUpdate, hd]
  · intro d hd; simp [applyUpdate, hd]
  · intro x hx hne
    rw [hmain]
    refine List.mem_map.mpr ⟨x, hx, ?_⟩
    have hb : (x.id == i) = false := beq_eq_false_iff_ne.mpr hne
    simp [hb]

/-- Witness for C9: the owner updates the amount while the body also
carries id, userId and createdAt values. -/
theorem ownerUpdatePartialFieldsFrame_witness :
    (updateExpense demoStore "userA" demoExpenseFood.id demoUpdateBody 3).2 =
      { statusCode := 200, status := some "success", message := none
      , errors := none
      , data := some (RespData.expense
          (applyUpdate demoExpenseFood demoUpdateBody.amount
            demoUpdateBody.category demoUpdateBody.note
            demoUpdateBody.date 3)) } :=
  (ownerUpdatePartialFieldsFrame demoStore "userA" demoExpenseFood.id
    demoUpdateBody 3 demoExpenseFood (by decide) (by decide)).1

/-- C10: a category query parameter that trims to the empty string
leaves the category filter absent: the list result, data and full
response, is identical to the one for the same query with no category
parameter at all. -/
theorem emptyCategoryTreatedAsAbsent :
    ∀ (store : List Expense) (uid : String) (q : ExpenseQuery) (s : String),
    strTrim s = "" →
    getExpensesData store uid (validateExpenseQuery { q with category := some s })
      = getExpensesData store uid (validateExpenseQuery { q with category := none })
    ∧ getExpensesResponse store uid (validateExpenseQuery { q with category := some s })
      = getExpensesResponse store uid (validateExpenseQuery { q with category := none }) := by
  intro store uid q s hs
  have h1 : validateExpenseQuery { q with category := some s } =
      { q with category := some "" } := by
    simp [validateExpenseQuery, hs]
  have h2 : validateExpenseQuery { q with category := none } =
      ({ q with category := none } : ExpenseQuery) := by
    simp [validateExpenseQuery]
  have hd : getExpensesData store uid
        (validateExpenseQuery { q with category := some s })
      = getExpensesData store uid (validateExpenseQuery { q with category := none }) := by
    rw [h1, h2]
    exact rfl
  refine ⟨hd, ?_⟩
  show getExpensesResponse store uid _ = getExpensesResponse store uid _
  unfold getExpensesResponse
  rw [hd]

/-- Witness for C10 with a whitespace-only category parameter. -/
theorem emptyCategoryTreatedAsAbsent_witness :
    getExpensesData demoStore "userA"
        (validateExpenseQuery { q25 with category := some "  " })
      = getExpensesData demoStore "userA"
        (validateExpenseQuery { q25 with category := none }) :=
  (emptyCategoryTreatedAsAbsent demoStore "userA" q25 "  " (by decide)).1

end ExpenseTracker
